import Mathlib

/-!
Verification development for the CLI/script generator of this repository
(src/scripts/generate_cli_script.py): a shallow embedding of its parameter
grammar parser, type-coercion engine, the two surface renderers, the
documentation renderers, the file materializer and the main entry point,
followed by theorems settling the frozen claims about them.

Strings are modelled as Lean strings, the filesystem as an explicit record
of files and directories, and every Python exception as an `Except` error.
-/

namespace Gen

/-! ## Python string helpers -/

/-- ASCII view of Python's whitespace class \s. -/
def isPySpace (c : Char) : Bool :=
  c == ' ' || c == '\t' || c == '\n' || c == '\x0b' || c == '\x0c' || c == '\r'

/-- ASCII view of Python's word-character class \w. -/
def isWordChar (c : Char) : Bool := c.isAlphanum || c == '_'

/-- Python str.strip() with no argument: whitespace removed from both ends. -/
def pyStrip (s : String) : String :=
  String.mk (((s.data.dropWhile isPySpace).reverse.dropWhile isPySpace).reverse)

/-- Python str.rstrip() with no argument. -/
def pyRstrip (s : String) : String :=
  String.mk ((s.data.reverse.dropWhile isPySpace).reverse)

/-- Python str.strip("_") as used by snake. -/
def stripUnderscore (l : List Char) : List Char :=
  ((l.dropWhile (· == '_')).reverse.dropWhile (· == '_')).reverse

/-- Helper for snake: re.sub(r"[-\s]+", "_", s), replacing each maximal run
of hyphens and whitespace by a single underscore. The flag says whether the
scan is inside such a run. -/
def collapseSeps : Bool → List Char → List Char
  | _, [] => []
  | inRun, c :: rest =>
    if c == '-' || isPySpace c then
      if inRun then collapseSeps true rest else '_' :: collapseSeps true rest
    else c :: collapseSeps false rest

/-- snake from the source: drop characters outside [\w\s-], collapse runs of
hyphens/whitespace to "_", strip outer underscores, lowercase. -/
def snake (s : String) : String :=
  let s1 := s.data.filter (fun c => isWordChar c || isPySpace c || c == '-')
  let s2 := collapseSeps false s1
  String.mk ((stripUnderscore s2).map Char.toLower)

/-- valid_identifier from the source: a full match of [A-Za-z_][A-Za-z0-9_]*. -/
def valid_identifier (s : String) : Bool :=
  match s.data with
  | [] => false
  | c :: rest => (c.isAlpha || c == '_') && rest.all (fun d => d.isAlphanum || d == '_')

/-- Python str.split(sep) for a one-character separator, on character lists. -/
def splitOnChar (sep : Char) : List Char → List (List Char)
  | [] => [[]]
  | c :: rest =>
    if c == sep then [] :: splitOnChar sep rest
    else
      match splitOnChar sep rest with
      | [] => [[c]]
      | g :: gs => (c :: g) :: gs

/-- Python token.split(":") as a list of strings. -/
def pySplitColon (s : String) : List String := (splitOnChar ':' s.data).map String.mk

/-- Python str.lower() (ASCII). -/
def pyLower (s : String) : String := String.mk (s.data.map Char.toLower)

/-- Python str.capitalize(): first character uppercased, the rest lowercased. -/
def pyCapitalize (s : String) : String :=
  match s.data with
  | [] => ""
  | c :: rest => String.mk (c.toUpper :: rest.map Char.toLower)

/-- Two lowercase hexadecimal digits of n (n < 256). -/
def hexDigits (n : Nat) : List Char :=
  let d := fun k => Char.ofNat (if k < 10 then 48 + k else 87 + k)
  [d (n / 16 % 16), d (n % 16)]

/-- Python repr of one character inside a string literal delimited by q. -/
def pyReprChar (q c : Char) : List Char :=
  if c == '\\' then ['\\', '\\']
  else if c == q then ['\\', q]
  else if c == '\n' then ['\\', 'n']
  else if c == '\r' then ['\\', 'r']
  else if c == '\t' then ['\\', 't']
  else if c.toNat < 32 || c.toNat == 127 then '\\' :: 'x' :: hexDigits c.toNat
  else [c]

/-- Python repr() of a string: single quotes unless the text holds a single
quote and no double quote; printable characters pass through and control
characters are hex-escaped. -/
def pyRepr (s : String) : String :=
  let q := if s.data.contains '\'' && !(s.data.contains '"') then '"' else '\''
  String.mk (q :: ((s.data.map (pyReprChar q)).flatten ++ [q]))

/-- Python "a or b" where a is an optional string: None and "" are falsy. -/
def pyOrStr (a : Option String) (b : String) : String :=
  match a with
  | none => b
  | some s => if s == "" then b else s

/-! ## Python int()/float() conversions -/

/-- Digits of an int literal after the first: single underscores allowed
between digits, accumulating the value. -/
def parseDigitsU : Nat → List Char → Option Nat
  | acc, [] => some acc
  | acc, '_' :: c :: rest =>
    if c.isDigit then parseDigitsU (acc * 10 + (c.toNat - 48)) rest else none
  | acc, c :: rest =>
    if c.isDigit then parseDigitsU (acc * 10 + (c.toNat - 48)) rest else none

/-- Body of Python int(): at least one digit, underscores between digits. -/
def parseNatU : List Char → Option Nat
  | [] => none
  | c :: rest => if c.isDigit then parseDigitsU (c.toNat - 48) rest else none

/-- Python int(string) for base 10: optional surrounding whitespace and sign. -/
def pyParseInt (s : String) : Option Int :=
  let t := ((s.data.dropWhile isPySpace).reverse.dropWhile isPySpace).reverse
  match t with
  | '+' :: rest => (parseNatU rest).map (fun n => (n : Int))
  | '-' :: rest => (parseNatU rest).map (fun n => -(n : Int))
  | rest => (parseNatU rest).map (fun n => (n : Int))

/-- Digit run with underscores between digits, returning the digits; the
empty list is accepted here (callers require a digit somewhere). -/
def digitsRunGo : List Char → Option (List Char)
  | [] => some []
  | '_' :: c :: rest => if c.isDigit then (digitsRunGo rest).map (c :: ·) else none
  | c :: rest => if c.isDigit then (digitsRunGo rest).map (c :: ·) else none

/-- Nonempty digit run with underscores between digits. -/
def digitsRun : List Char → Option (List Char)
  | [] => none
  | c :: rest => if c.isDigit then (digitsRunGo rest).map (c :: ·) else none

/-- Rendering of a parsed plain decimal in the shape Python's str(float())
gives for such inputs: leading integer zeros dropped, trailing fraction
zeros dropped, at least one digit on each side of the point. Exponent
notation, inf/nan and binary rounding are floating point and outside this
embedding; no claim depends on them. -/
def floatLitOfParts (neg : Bool) (ip fp : List Char) : String :=
  let ipz := ip.dropWhile (· == '0')
  let ipn := if ipz.isEmpty then ['0'] else ipz
  let fpz := (fp.reverse.dropWhile (· == '0')).reverse
  let fpn := if fpz.isEmpty then ['0'] else fpz
  String.mk ((if neg then ['-'] else []) ++ ipn ++ '.' :: fpn)

/-- Python float(string) for plain decimal notation, rendered back by str(). -/
def pyParseFloatLit (s : String) : Option String :=
  let t := ((s.data.dropWhile isPySpace).reverse.dropWhile isPySpace).reverse
  let signBody : Bool × List Char :=
    match t with
    | '+' :: rest => (false, rest)
    | '-' :: rest => (true, rest)
    | rest => (false, rest)
  let neg := signBody.1
  match splitOnChar '.' signBody.2 with
  | [ip] => (digitsRun ip).map (fun d => floatLitOfParts neg d [])
  | [ip, fp] =>
    if ip.isEmpty then (digitsRun fp).map (fun d => floatLitOfParts neg [] d)
    else if fp.isEmpty then (digitsRun ip).map (fun d => floatLitOfParts neg d [])
    else
      match digitsRun ip, digitsRun fp with
      | some a, some b => some (floatLitOfParts neg a b)
      | _, _ => none
  | _ => none

/-! ## Data model and parameter grammar parser -/

/-- ParamSpec dataclass of the source. -/
structure ParamSpec where
  name : String
  type : String
  required : Bool
  default : Option String
deriving DecidableEq, Repr

/-- SUPPORTED_TYPES of the source (a set there; membership is what is used). -/
def SUPPORTED_TYPES : List String := ["str", "int", "float", "bool"]

/-- Field validation of parse_param_token after the split. The "Supported:"
listing is sorted(SUPPORTED_TYPES) joined with ", ". -/
def parse_param_fields (token p0 p1 : String) (p2 : Option String) : Except String ParamSpec :=
  let name := pyStrip p0
  let typ := pyStrip p1
  let dflt := p2.map pyStrip
  if name == "" || !(valid_identifier (snake name)) then
    .error ("Invalid parameter name: '" ++ name ++ "'")
  else if !(SUPPORTED_TYPES.contains typ) then
    .error ("Unsupported type '" ++ typ ++ "' in '" ++ token ++ "'. Supported: bool, float, int, str")
  else
    .ok { name := snake name, type := typ, required := dflt.isNone, default := dflt }

/-- parse_param_token from the source: split on ":"; 2 or 3 fields are valid. -/
def parse_param_token (token : String) : Except String ParamSpec :=
  match pySplitColon token with
  | [p0, p1] => parse_param_fields token p0 p1 none
  | [p0, p1, p2] => parse_param_fields token p0 p1 (some p2)
  | _ => .error ("Invalid --param format: '" ++ token ++ "'. Expected 'name:type[:default]'")

/-- Loop of parse_params: seen collects the normalized names already taken. -/
def parse_params_go (seen : List String) : List String → Except String (List ParamSpec)
  | [] => .ok []
  | t :: ts =>
    match parse_param_token t with
    | .error e => .error e
    | .ok spec =>
      if seen.contains spec.name then
        .error ("Duplicate parameter name: '" ++ spec.name ++ "'")
      else
        match parse_params_go (spec.name :: seen) ts with
        | .error e => .error e
        | .ok rest => .ok (spec :: rest)

/-- parse_params from the source. -/
def parse_params (tokens : List String) : Except String (List ParamSpec) :=
  parse_params_go [] tokens

/-! ## Type coercion engine -/

/-- click_type from the source. -/
def click_type (typ : String) : String :=
  if typ == "str" then "str"
  else if typ == "int" then "int"
  else if typ == "float" then "float"
  else if typ == "bool" then "bool"
  else "str"

/-- Truthy default tokens accepted for bool casting. -/
def truthyTokens : List String := ["1", "true", "yes", "y", "on"]

/-- Falsy default tokens accepted for bool casting. -/
def falsyTokens : List String := ["0", "false", "no", "n", "off"]

/-- python_cast_value from the source: render a textual default as a Python
literal, or fail the way the corresponding Python conversion fails. -/
def python_cast_value (typ val : String) : Except String String :=
  if typ == "str" then .ok (pyRepr val)
  else if typ == "int" then
    match pyParseInt val with
    | some n => .ok (toString n)
    | none => .error ("invalid literal for int() with base 10: " ++ pyRepr val)
  else if typ == "float" then
    match pyParseFloatLit val with
    | some lit => .ok lit
    | none => .error ("could not convert string to float: " ++ pyRepr val)
  else if typ == "bool" then
    if truthyTokens.contains (pyLower val) then .ok "True"
    else if falsyTokens.contains (pyLower val) then .ok "False"
    else .error ("Invalid boolean default: " ++ val)
  else .ok (pyRepr val)

/-! ## textwrap.dedent and textwrap.indent -/

/-- Lines of a text, as Python text.split("\n"). -/
def splitLines (s : String) : List String := (splitOnChar '\n' s.data).map String.mk

/-- A line that is nonempty and all spaces/tabs (textwrap's whitespace-only
line pattern). -/
def isBlankLine (l : String) : Bool :=
  l != "" && l.data.all (fun c => c == ' ' || c == '\t')

/-- Leading space/tab prefix of a line. -/
def leadingWs (l : String) : List Char := l.data.takeWhile (fun c => c == ' ' || c == '\t')

/-- Longest common prefix of two character lists. -/
def commonPrefix : List Char → List Char → List Char
  | a :: as, b :: bs => if a == b then a :: commonPrefix as bs else []
  | _, _ => []

/-- textwrap.dedent: whitespace-only lines are normalized to empty, then the
common leading space/tab margin of the nonempty lines is removed from every
line that starts with it. -/
def pyDedent (s : String) : String :=
  let lines := (splitLines s).map (fun l => if isBlankLine l then "" else l)
  let margins := (lines.filter (fun l => l != "")).map leadingWs
  let margin :=
    match margins with
    | [] => ([] : List Char)
    | m :: ms => ms.foldl commonPrefix m
  let stripped := lines.map (fun l =>
    if margin.isPrefixOf l.data then String.mk (l.data.drop margin.length) else l)
  String.intercalate "\n" stripped

/-- str.splitlines(keepends=True) for newline-terminated text: segments each
keep their trailing newline; a last segment without one is kept if nonempty. -/
def splitKeepNlGo (cur : List Char) : List Char → List (List Char)
  | [] => if cur.isEmpty then [] else [cur.reverse]
  | c :: rest =>
    if c == '\n' then (c :: cur).reverse :: splitKeepNlGo [] rest
    else splitKeepNlGo (c :: cur) rest

/-- All segments of a character list, each ending with its newline. -/
def splitKeepNl (l : List Char) : List (List Char) := splitKeepNlGo [] l

/-- textwrap.indent with the default predicate: the prefix is added to every
line that holds a non-whitespace character. -/
def pyIndent (pre text : String) : String :=
  let segs := splitKeepNl text.data
  String.mk (segs.map (fun seg =>
    if seg.any (fun c => !(isPySpace c)) then pre.data ++ seg else seg)).flatten

/-! ## Except plumbing shared by the renderers -/

/-- Whether an Except value is ok. -/
def exOk {α : Type} (e : Except String α) : Bool :=
  match e with
  | .ok _ => true
  | .error _ => false

/-- The renderers' per-parameter loop: first error wins, order preserved. -/
def mapExcept {α β : Type} (f : α → Except String β) : List α → Except String (List β)
  | [] => .ok []
  | a :: as =>
    match f a with
    | .error e => .error e
    | .ok b =>
      match mapExcept f as with
      | .error e => .error e
      | .ok bs => .ok (b :: bs)

/-! ## Surface renderers -/

/-- The default expression rendered for a bool parameter; identical in both
surface renderers ("False" if required else cast of (default or "false")). -/
def boolDefaultExpr (p : ParamSpec) : Except String String :=
  if p.required then .ok "False"
  else python_cast_value "bool" (pyOrStr p.default "false")

/-- The default expression rendered for a non-bool optional parameter;
identical in both surface renderers. -/
def optDefaultExpr (p : ParamSpec) : Except String String :=
  match p.default with
  | some d => python_cast_value p.type d
  | none => .ok "None"

/-- The only fallible step of rendering one parameter's option block: the
default coercion actually performed (ok with an unused value where the
renderers perform none). -/
def paramRenderCast (p : ParamSpec) : Except String String :=
  if p.type == "bool" then boolDefaultExpr p
  else if p.required then .ok ""
  else optDefaultExpr p

/-- Text of the CLI bool option block (dedent of the rstripped template). -/
def cliOptBoolTemplate (pname default_expr : String) : String :=
  pyDedent (pyRstrip (
    "\n                    @click.option(\n                        \"--" ++
        pname ++
        "\",\n                        is_flag=True,\n                        default=" ++
        default_expr ++
        ",\n                        show_default=True,\n                        help=\"Boolean flag parameter: " ++
        pname ++
        "\",\n                    )\n                    "
    ))

/-- Text of the CLI required option block. -/
def cliOptReqTemplate (pname click_typ : String) : String :=
  pyDedent (pyRstrip (
    "\n                        @click.option(\n                            \"--" ++
        pname ++
        "\",\n                            type=" ++
        click_typ ++
        ",\n                            required=True,\n                            help=\"Required parameter: " ++
        pname ++
        "\",\n                        )\n                        "
    ))

/-- Text of the CLI optional option block. -/
def cliOptOptTemplate (pname click_typ default_expr show_default : String) : String :=
  pyDedent (pyRstrip (
    "\n                        @click.option(\n                            \"--" ++
        pname ++
        "\",\n                            type=" ++
        click_typ ++
        ",\n                            default=" ++
        default_expr ++
        ",\n                            show_default=" ++
        show_default ++
        ",\n                            help=\"Optional parameter: " ++
        pname ++
        "\",\n                        )\n                        "
    ))

/-- One @click.option block of the CLI surface for a parameter, exactly as
generate_cli_content renders it. -/
def cliOptionLine (p : ParamSpec) : Except String String :=
  if p.type == "bool" then
    match boolDefaultExpr p with
    | .error e => .error e
    | .ok default_expr => .ok (cliOptBoolTemplate p.name default_expr)
  else if p.required then .ok (cliOptReqTemplate p.name (click_type p.type))
  else
    match optDefaultExpr p with
    | .error e => .error e
    | .ok default_expr =>
      .ok (cliOptOptTemplate p.name (click_type p.type) default_expr
        (if p.default.isSome then "True" else "False"))

/-- The --json option block appended by the CLI surface. -/
def cliJsonOption : String :=
  pyDedent (pyRstrip (
    "\n            @click.option(\n                \"--json\",\n                \"output_json\",\n                is_flag=True,\n                help=\"Emit pure JSON on stdout (no logs). Human-readable output otherwise.\",\n            )\n            "
    ))

/-- Signature entry contributed per parameter in the CLI surface. -/
def cliSigEntry (p : ParamSpec) : String :=
  if p.type == "bool" then p.name ++ ": bool" else p.name ++ ": " ++ click_type p.type

/-- Query-dict entry contributed per parameter on either surface. -/
def httpParamEntry (p : ParamSpec) : String := "\"" ++ p.name ++ "\": " ++ p.name

/-- The full text of the generated CLI subcommand file, from the computed
slot values (the body of generate_cli_content's content f-string). -/
def cliContentTemplate (user_agent api_base_url binary subcommand options_blob func_name
    signature desc_line endpoint http_params_blob human_blob : String) : String :=
    "#!/usr/bin/env python3\nimport json\nimport sys\nimport typing as t\n\nimport click\nimport httpx\n\nDEFAULT_TIMEOUT = 30.0\nDEFAULT_USER_AGENT = " ++
        pyRepr user_agent ++
        "\nDEFAULT_API_BASE_URL = " ++
        pyRepr api_base_url ++
        "\n\n@click.group()\ndef cli():\n    \"\"\"" ++
        binary ++
        " root CLI group.\n    Add or import additional commands into this group.\n    \"\"\"\n\n\n@cli.command(" ++
        pyRepr subcommand ++
        ")\n" ++
        pyIndent "" options_blob ++
        "\ndef " ++
        func_name ++
        "(" ++
        signature ++
        ") -> None:\n    \"\"\"" ++
        desc_line ++
        ".\n    Conventions:\n    - --json → machine output (strict JSON on stdout)\n    - default → concise human-readable output\n    - exit(0) on success; exit(1) on failure\n    - stderr for human diagnostics in JSON mode\n    \"\"\"\n    try:\n        with httpx.Client(\n            base_url=DEFAULT_API_BASE_URL,\n            timeout=DEFAULT_TIMEOUT,\n            headers=\x7b\"User-Agent\": DEFAULT_USER_AGENT\x7d,\n" ++
        "        ) as client:\n            # Replace with your real HTTP logic and response shaping\n            resp = client.get(\n                " ++
        pyRepr endpoint ++
        ",\n                params=\x7b\n                " ++
        pyIndent "                " http_params_blob ++
        "\n                \x7d,\n            )\n            resp.raise_for_status()\n            data: t.Dict[str, t.Any] = resp.json()\n\n        if output_json:\n            click.echo(json.dumps(\x7b\n                \"endpoint\": " ++
        pyRepr endpoint ++
        ",\n                \"params\": \x7b\n" ++
        pyIndent "                    " http_params_blob ++
        "\n                \x7d,\n                \"data\": data\n            \x7d))\n        else:\n            " ++
        human_blob ++
        "\n            click.echo(f\"Items: \x7blen(data) if isinstance(data, list) else 'N/A'\x7d\")\n\n        sys.exit(0)\n\n    except httpx.HTTPStatusError as e:\n        message = f\"HTTP error: \x7be.response.status_code\x7d - \x7be.response.text\x7d\"\n        if output_json:\n            click.echo(json.dumps(\x7b\"error\": message\x7d))\n        else:\n            click.echo(f\"Error: \x7bmessage\x7d\", err=True)\n        sys.exit(1)\n\n" ++
        "    except httpx.RequestError as e:\n        message = f\"Network error: \x7bstr(e)\x7d\"\n        if output_json:\n            click.echo(json.dumps(\x7b\"error\": message\x7d))\n        else:\n            click.echo(f\"Error: \x7bmessage\x7d\", err=True)\n        sys.exit(1)\n\n    except Exception as e:\n        message = f\"Unexpected error: \x7bstr(e)\x7d\"\n        if output_json:\n" ++
        "            click.echo(json.dumps(\x7b\"error\": message\x7d))\n        else:\n            click.echo(f\"Error: \x7bmessage\x7d\", err=True)\n        sys.exit(1)\n\n\nif __name__ == \"__main__\":\n    cli()\n"

/-- generate_cli_content from the source: the full text of the generated CLI
subcommand file, or the first default-coercion error. -/
def generate_cli_content (name binary api_base_url endpoint : String)
    (params : List ParamSpec) (description : Option String) : Except String String :=
  let func_name := snake name ++ "_cmd"
  let subcommand := String.mk (name.data.map (fun c => if c == '_' then '-' else c))
  let user_agent := binary ++ "/1.0"
  match mapExcept cliOptionLine params with
  | .error e => .error e
  | .ok opts =>
    let option_lines := opts ++ [cliJsonOption]
    let options_blob := String.intercalate "\n" option_lines
    let param_names_for_signature := params.map cliSigEntry
    let http_params := params.map httpParamEntry
    let signature := String.intercalate ", " (param_names_for_signature ++ ["output_json: bool"])
    let http_params_blob :=
      if http_params.isEmpty then "" else String.intercalate ",\n                " http_params
    let human_lines :=
      ["f\"Command: " ++ subcommand ++ "\"",
       "f\"Endpoint: " ++ endpoint ++ "\"",
       if params.isEmpty then "f\"No parameters\""
       else
         "f\"Params: \x7b" ++
           String.intercalate ", "
             (params.map (fun p => p.name ++ "=\x7b\x7b " ++ p.name ++ " \x7d\x7d")) ++
           "\x7d\""]
    let human_blob :=
      String.intercalate "\n            "
        ((human_lines.filter (fun l => l != "")).map (fun l => "click.echo(" ++ l ++ ")"))
    let desc_line :=
      match description with
      | some d => pyStrip d
      | none => name ++ " subcommand"
    .ok (cliContentTemplate user_agent api_base_url binary subcommand options_blob func_name
      signature desc_line endpoint http_params_blob human_blob)

/-- Script-surface click type expression: click.Int / click.Float for the
numeric types, click_type otherwise. -/
def scriptClickType (typ : String) : String :=
  if typ == "int" || typ == "float" then "click." ++ pyCapitalize (click_type typ)
  else click_type typ

/-- Text of the script bool option block. -/
def scriptOptBoolTemplate (pname default_expr : String) : String :=
  pyDedent (pyRstrip (
    "\n                    @click.option(\n                        \"--" ++
        pname ++
        "\",\n                        is_flag=True,\n                        default=" ++
        default_expr ++
        ",\n                        show_default=True,\n                        help=\"Boolean flag parameter: " ++
        pname ++
        "\",\n                    )\n                    "
    ))

/-- Text of the script required option block. -/
def scriptOptReqTemplate (pname click_typ : String) : String :=
  pyDedent (pyRstrip (
    "\n                        @click.option(\n                            \"--" ++
        pname ++
        "\",\n                            type=" ++
        click_typ ++
        ",\n                            required=True,\n                            help=\"Required parameter: " ++
        pname ++
        "\",\n                        )\n                        "
    ))

/-- Text of the script optional option block. -/
def scriptOptOptTemplate (pname click_typ default_expr show_default : String) : String :=
  pyDedent (pyRstrip (
    "\n                        @click.option(\n                            \"--" ++
        pname ++
        "\",\n                            type=" ++
        click_typ ++
        ",\n                            default=" ++
        default_expr ++
        ",\n                            show_default=" ++
        show_default ++
        ",\n                            help=\"Optional parameter: " ++
        pname ++
        "\",\n                        )\n                        "
    ))

/-- One @click.option block of the script surface for a parameter. -/
def scriptOptionLine (p : ParamSpec) : Except String String :=
  if p.type == "bool" then
    match boolDefaultExpr p with
    | .error e => .error e
    | .ok default_expr => .ok (scriptOptBoolTemplate p.name default_expr)
  else if p.required then .ok (scriptOptReqTemplate p.name (scriptClickType p.type))
  else
    match optDefaultExpr p with
    | .error e => .error e
    | .ok default_expr =>
      .ok (scriptOptOptTemplate p.name (scriptClickType p.type) default_expr
        (if p.default.isSome then "True" else "False"))

/-- The --json option block appended by the script surface. -/
def scriptJsonOption : String :=
  pyDedent (pyRstrip (
    "\n            @click.option(\n                \"--json\",\n                \"output_json\",\n                is_flag=True,\n                help=\"Emit strict JSON on stdout (no logs). Human-readable output otherwise.\",\n            )\n            "
    ))

/-- The --simulate option block, appended when include_simulate is set. -/
def scriptSimulateOption : String :=
  pyDedent (pyRstrip (
    "\n                @click.option(\n                    \"--simulate\",\n                    is_flag=True,\n                    help=\"Return stub data instead of making a network call.\",\n                )\n                "
    ))

/-- Signature entry contributed per parameter in the script surface. -/
def scriptSigEntry (p : ParamSpec) : String :=
  if p.type == "bool" then p.name ++ ": bool" else p.name

/-- The simulate stub of the script surface (dedent then strip). -/
def simulateStubTemplate (endpoint params_blob method_name args_join : String) : String :=
  pyStrip (pyDedent (
    "\n            if simulate:\n                data = \x7b\n                    \"endpoint\": " ++
        pyRepr endpoint ++
        ",\n                    \"params\": \x7b\n" ++
        pyIndent "                        " params_blob ++
        "\n                    \x7d,\n                    \"items\": [\x7b\"id\": \"ex_1\"\x7d, \x7b\"id\": \"ex_2\"\x7d],\n                    \"_note\": \"Simulated data. Wire up real HTTP logic and remove --simulate.\",\n                \x7d\n            else:\n                with Client() as client:\n                    data = client." ++
        method_name ++
        "(" ++
        args_join ++
        ")\n            "
    ))

/-- The full text of the generated standalone script, from the computed slot
values (the body of generate_script_content's content f-string). -/
def scriptContentTemplate (desc_line api_base_url user_agent method_name args_join endpoint
    params_blob name options_blob signature simulate_stub : String) : String :=
    "#!/usr/bin/env python3\n# /// script\n# dependencies = [\n#     \"httpx\",\n#     \"click\",\n# ]\n# ///\n\n\"\"\"" ++
        desc_line ++
        ".\nSelf-contained script with minimal HTTP client.\n\nConventions:\n- `--help` shows options\n- `--json` prints strict JSON on stdout (no logs)\n- Exit 0 on success; exit 1 on failure\n- Keep code ~200–300 lines when possible to reduce context\n\"\"\"\n\nimport json\nimport sys\nfrom typing import Any, Dict, Optional\n\nimport click\nimport httpx\n\nAPI_BASE_URL = " ++
        pyRepr api_base_url ++
        "\nAPI_TIMEOUT = 30.0\nUSER_AGENT = " ++
        pyRepr user_agent ++
        "\nDEFAULT_HEADERS = \x7b\n    \"User-Agent\": USER_AGENT,\n    # Add auth headers here if needed; prefer env vars/secure stores.\n\x7d\n\nclass Client:\n    def __init__(self):\n        self.client = httpx.Client(base_url=API_BASE_URL, timeout=API_TIMEOUT, headers=DEFAULT_HEADERS)\n\n    def __enter__(self) -> \"Client\":\n        return self\n\n    def __exit__(self, exc_type, exc, tb):\n        self.client.close()\n\n" ++
        "    def " ++
        method_name ++
        "(self, " ++
        args_join ++
        ") -> Dict[str, Any]:\n        \"\"\"\n        Replace this implementation with your real logic.\n        Keep return shape consistent with your CLI and MCP surfaces.\n        \"\"\"\n        resp = self.client.get(\n            " ++
        pyRepr endpoint ++
        ",\n            params=\x7b\n" ++
        pyIndent "                " params_blob ++
        "\n            \x7d,\n        )\n        resp.raise_for_status()\n        return resp.json()\n\n\ndef format_human(data: Dict[str, Any]) -> str:\n    lines = []\n    lines.append(\"" ++
        name ++
        " Results\")\n    lines.append(\"=\" * 40)\n    lines.append(f\"endpoint: " ++
        endpoint ++
        "\")\n    # For lists, show a count; adjust for your real schema\n    count = len(data) if isinstance(data, list) else (len(data.get(\"items\", [])) if isinstance(data, dict) else \"N/A\")\n    lines.append(f\"count:    \x7bcount\x7d\")\n    return \"\\n\".join(lines)\n\n\n@click.command()\n" ++
        options_blob ++
        "\ndef main(" ++
        signature ++
        "):\n    \"\"\"" ++
        desc_line ++
        ".\"\"\"\n    try:\n        " ++
        simulate_stub ++
        "\n\n        if output_json:\n            click.echo(json.dumps(data))\n        else:\n            click.echo(format_human(data))\n        sys.exit(0)\n\n    except httpx.HTTPStatusError as e:\n        msg = f\"HTTP error: \x7be.response.status_code\x7d - \x7be.response.text\x7d\"\n        if output_json:\n            click.echo(json.dumps(\x7b\"error\": msg\x7d))\n        else:\n            click.echo(f\"❌ Error: \x7bmsg\x7d\", err=True)\n" ++
        "        sys.exit(1)\n\n    except httpx.RequestError as e:\n        msg = f\"Network error: \x7bstr(e)\x7d\"\n        if output_json:\n            click.echo(json.dumps(\x7b\"error\": msg\x7d))\n        else:\n            click.echo(f\"❌ Error: \x7bmsg\x7d\", err=True)\n        sys.exit(1)\n\n    except Exception as e:\n        msg = f\"Unexpected error: \x7bstr(e)\x7d\"\n        if output_json:\n" ++
        "            click.echo(json.dumps(\x7b\"error\": msg\x7d))\n        else:\n            click.echo(f\"❌ Error: \x7bmsg\x7d\", err=True)\n        sys.exit(1)\n\n\nif __name__ == \"__main__\":\n    main()\n"

/-- generate_script_content from the source: the full text of the generated
standalone script, or the first default-coercion error. -/
def generate_script_content (name binary api_base_url endpoint : String)
    (params : List ParamSpec) (description : Option String)
    (include_simulate : Bool) : Except String String :=
  let func_suffix := snake name
  let method_name := "fetch_" ++ func_suffix
  let user_agent := binary ++ "-script/1.0"
  match mapExcept scriptOptionLine params with
  | .error e => .error e
  | .ok opts =>
    let option_lines :=
      opts ++ [scriptJsonOption] ++ (if include_simulate then [scriptSimulateOption] else [])
    let options_blob := String.intercalate "\n" option_lines
    let signature_names := params.map scriptSigEntry
    let param_for_query := params.map httpParamEntry
    let signature :=
      String.intercalate ", "
        (signature_names ++ ["output_json"] ++ (if include_simulate then ["simulate"] else []))
    let params_blob :=
      if param_for_query.isEmpty then ""
      else String.intercalate ",\n                    " param_for_query
    let desc_line :=
      match description with
      | some d => pyStrip d
      | none => name ++ " script"
    let args_join := String.intercalate ", " (params.map (fun p => p.name))
    let simulate_stub :=
      if include_simulate then
        simulateStubTemplate endpoint params_blob method_name args_join
      else
        "with Client() as client:\n            data = client." ++ method_name ++
          "(" ++ args_join ++ ")"
    .ok (scriptContentTemplate desc_line api_base_url user_agent method_name args_join
      endpoint params_blob name options_blob signature simulate_stub)

/-! ## Documentation renderers -/

/-- generate_test_plan_content from the source: dedent of the fixed plan text
with the binary name substituted. -/
def generate_test_plan_content (binary : String) : String :=
  pyDedent (
    "    # End-to-End Test and Validation Plan\n\n    Scope\n    - Validate parity, reliability, and ergonomics across four capability surfaces:\n      1) MCP Server (wrapping CLI via subprocess)\n      2) CLI (canonical API logic and JSON contracts)\n      3) File‑System Scripts (self‑contained, progressive disclosure)\n      4) Claude Skills (autonomous discovery; wraps scripts)\n" ++
        "    - Ensure behavior remains additive—MCP remains available.\n\n    Guiding Principles\n    - CLI is the canonical source for remote I/O and JSON.\n    - MCP wraps CLI via subprocess (no duplicate HTTP logic).\n    - Scripts remain self-contained (no shared project imports).\n    - Skills document triggers and default to --json for processing.\n    - Strict JSON in machine mode; no stdout noise.\n\n" ++
        "    Test Categories\n    1) Parity Checks\n       - For each capability/tool:\n         - Execute CLI subcommand with representative params; capture JSON.\n         - Execute corresponding script with same params; capture JSON.\n         - Execute MCP tool (which calls CLI); capture JSON.\n         - Compare golden outputs for structural and key field equivalence.\n" ++
        "       - Verify parameter semantics: required vs optional, defaults, ranges.\n\n    2) Error and Exit Codes\n       - CLI: simulate validation errors (missing required, invalid enum/range).\n         - Expect exit 1, JSON error envelope under --json.\n       - Scripts: same as CLI.\n       - MCP: Ensure subprocess non-zero translates to structured error.\n" ++
        "       - Verify no stdout noise in --json mode across CLI/scripts.\n       - Confirm consistent error messages (stable shape).\n\n    3) Pagination and Cursors\n       - For list endpoints, verify:\n         - Default limit applied\n         - Cursor propagation (next/prev) where applicable\n         - CLI and scripts return identical pagination behavior\n         - MCP surfaces identical fields via CLI\n\n" ++
        "    4) Caching (if applicable)\n       - If CLI implements caching:\n         - First call latency vs subsequent calls\n         - TTL respected; refresh behavior with --refresh flag (if implemented)\n         - No stale data after TTL expiration\n         - Scripts may opt for lightweight cache; document paths and sizes\n\n    5) Performance and Token Hygiene\n" ++
        "       - Measure payload sizes (CLI and scripts) with default vs --full modes (if available)\n       - Ensure human-readable output remains concise\n       - Confirm that skills default to --json and avoid reading code unless necessary\n\n    6) Security and Configuration\n       - Ensure no secrets are logged or printed in --json mode\n       - For authenticated endpoints (if any):\n" ++
        "         - Validate env var-based configuration\n         - Confirm minimal scopes; verify failure behavior with missing/invalid creds\n\n    7) Claude Skills: Trigger and Behavior\n       - Confirm SKILL.md triggers align with user phrasing\n       - Prompt Claude Code with domain-relevant phrases to ensure autonomous invocation\n       - Ensure scripts are invoked with --json\n" ++
        "       - Validate that skills do not read code unless strictly needed (progressive disclosure)\n\n    8) Documentation Consistency\n       - Check that --help for CLI and scripts shows accurate flags, defaults, examples\n       - Verify mapping sheets are up-to-date per tool\n       - Confirm README “Pick your path” links are discoverable and correct\n\n    9) CI Integration\n" ++
        "       - Add a job to run unit/integration tests for CLI and scripts\n       - Optional: Golden output checks (snapshot testing) for a subset of commands\n       - Linting and basic static checks (flake8/ruff, mypy optional)\n       - Ensure test suite fails on non-zero exit or malformed JSON\n\n    Sample Test Commands\n    - CLI:\n      - uv run " ++
        binary ++
        " example --json\n      - uv run " ++
        binary ++
        " example --param1 foo --limit 5 --json\n    - Scripts:\n      - uv run scripts/example.py --param1 foo --limit 5 --json\n    - MCP:\n      - Use MCP inspector/dev tooling to call the corresponding tool and compare output to CLI JSON\n\n    Exit Criteria\n    - 100% parity for the chosen capability set across CLI/scripts/MCP\n    - Error and exit code behavior validated and consistent\n" ++
        "    - Skill triggers verified via manual prompts\n    - Docs updated; mapping sheets exist for each tool\n\n    Ownership and Change Management\n    - Treat CLI as the single source of truth for API logic and JSON contracts\n    - Pin MCP to a compatible CLI version (if versioning introduced)\n    - Scripts mirror CLI semantics; keep self-contained\n" ++
        "    - Update mapping sheets, changelog, and --help epilogues on changes\n\n    Attribution\n    - This plan builds on patterns inspired by the beyond-mcp repository by IndyDevDan (additive approach).\n    "
  )

/-- generate_generator_usage_content from the source: dedent of the fixed
usage text. -/
def generate_generator_usage_content : String :=
  pyDedent (
    "    # CLI/Script Generator Usage\n\n    This generator scaffolds:\n    - A CLI subcommand (Click + httpx)\n    - A self-contained file-system script (Click + httpx)\n    - Optional documentation (test/validation plan, usage snippet)\n\n    Basic Usage\n    ```bash\n    python migration_guide/templates/generate_cli_script.py <name> \\\n      --target both \\\n      --binary yourcmd \\\n" ++
        "      --endpoint /v1/example \\\n      --api-base-url https://api.example.com \\\n      --param limit:int:10 \\\n      --param query:str \\\n      --out-cli ./apps/2_cli/<name>.py \\\n      --out-script ./apps/3_file_system_scripts/scripts/<name>.py \\\n      --emit-test-plan ./migration_guide/test_validation_plan.md     ```\n\n    Param Spec\n    - Format: name:type[:default]\n" ++
        "      - If default omitted, parameter is required\n      - Supported types: str, int, float, bool\n    - Examples:\n      - --param limit:int:10\n      - --param query:str\n      - --param exact:bool:true\n\n    Tips\n    - Keep parameter names and defaults consistent with MCP and Skills.\n    - Prefer clean JSON outputs and minimal stdout noise for automation.\n" ++
        "    - For Skills, default to --json and add clear “When to use” bullets.\n    "
  )

/-! ## File materializer and filesystem model -/

/-- A path as its components (argparse/Path parsing is the out-of-scope shell). -/
abbrev FsPath := List String

/-- str(path): components joined by the separator. -/
def pathStr (p : FsPath) : String := String.intercalate "/" p

/-- The filesystem visible to the generator: files with their text, and
directories. The working directory is the implicit root. -/
structure FS where
  files : List (FsPath × String)
  dirs : List FsPath
deriving DecidableEq, Repr

/-- Content of a file, if present. -/
def lookupFile : List (FsPath × String) → FsPath → Option String
  | [], _ => none
  | (q, c) :: rest, p => if q = p then some c else lookupFile rest p

/-- Write or overwrite one file's content. -/
def setFile : List (FsPath × String) → FsPath → String → List (FsPath × String)
  | [], p, c => [(p, c)]
  | (q, c0) :: rest, p, c => if q = p then (q, c) :: rest else (q, c0) :: setFile rest p c

/-- Path.exists(): true for a file or a directory at that path. -/
def pathExists (fs : FS) (p : FsPath) : Bool :=
  (lookupFile fs.files p).isSome || decide (p ∈ fs.dirs)

/-- Errors the materializer and main distinguish: FileExistsError against
every other exception. -/
inductive Err where
  | fileExists (msg : String)
  | other (msg : String)
deriving DecidableEq, Repr

/-- The nonempty prefixes of a path, shortest first: the directories that
mkdir(parents=True) walks. -/
def ancestors (p : FsPath) : List FsPath :=
  (List.range p.length).map (fun i => p.take (i + 1))

/-- Path.mkdir(parents=True, exist_ok=True): an existing file at a strict
ancestor fails as NotADirectoryError, at the target as FileExistsError;
otherwise all missing directories are created. -/
def mkdirParents (fs : FS) (target : FsPath) : Except Err FS :=
  if ((ancestors target).dropLast).any (fun q => (lookupFile fs.files q).isSome) then
    .error (.other ("Not a directory: " ++ pathStr target))
  else if (lookupFile fs.files target).isSome then
    .error (.fileExists ("File exists: " ++ pathStr target))
  else
    .ok { fs with
      dirs := fs.dirs ++ (ancestors target).filter (fun q => decide (q ∉ fs.dirs)) }

/-- ensure_parent from the source: mkdir -p of the path's parent. -/
def ensure_parent (fs : FS) (p : FsPath) : Except Err FS :=
  mkdirParents fs p.dropLast

/-- path.write_text(...) plus the "Wrote" report line: fails when the target
is a directory, otherwise replaces the file's content. -/
def writeText (fs : FS) (p : FsPath) (c : String) : Except Err (FS × List String) :=
  if p ∈ fs.dirs then .error (.other ("Is a directory: " ++ pathStr p))
  else .ok ({ fs with files := setFile fs.files p c }, ["Wrote " ++ pathStr p])

/-- write_file from the source: the exists/force conflict check, then
ensure_parent, then either the dry-run report or the write. -/
def write_file (fs : FS) (p : FsPath) (content : String) (force dry_run : Bool) :
    Except Err (FS × List String) :=
  if pathExists fs p && !force then
    .error (.fileExists ("File exists: " ++ pathStr p ++ " (use --force to overwrite)"))
  else
    match ensure_parent fs p with
    | .error e => .error e
    | .ok fs1 =>
      if dry_run then .ok (fs1, ["[DRY RUN] Would write: " ++ pathStr p])
      else writeText fs1 p content

/-! ## Main entry point -/

/-- The --target choice. -/
inductive Target where
  | cli
  | script
  | both
deriving DecidableEq, Repr

/-- One generator invocation as handed over by the argument-parsing shell
(which itself is out of scope): main's args with their argparse defaults
already applied. -/
structure Request where
  name : String
  target : Target
  binary : String
  endpoint : String
  apiBaseUrl : String
  param : List String
  description : Option String
  outCli : Option FsPath
  outScript : Option FsPath
  noSimulate : Bool
  emitTestPlan : Option FsPath
  emitDocSnippets : Option FsPath
  force : Bool
  dryRun : Bool
deriving DecidableEq, Repr

/-- The write jobs of main in order: each is the rendered content (or the
exception raised while rendering it) with its target path. -/
def mainJobs (r : Request) (cap : String) (params : List ParamSpec) :
    List (Except String String × FsPath) :=
  (if r.target = Target.cli ∨ r.target = Target.both then
    [(generate_cli_content cap r.binary r.apiBaseUrl r.endpoint params r.description,
      r.outCli.getD ["cli_" ++ cap ++ ".py"])]
   else []) ++
  (if r.target = Target.script ∨ r.target = Target.both then
    [(generate_script_content cap r.binary r.apiBaseUrl r.endpoint params r.description
        (!r.noSimulate),
      r.outScript.getD ["scripts", cap ++ ".py"])]
   else []) ++
  (match r.emitTestPlan with
   | some p => [(Except.ok (generate_test_plan_content r.binary), p)]
   | none => []) ++
  (match r.emitDocSnippets with
   | some p => [(Except.ok generate_generator_usage_content, p)]
   | none => [])

/-- The try block of main: render errors and write errors abort the rest;
FileExistsError exits 3, any other exception 1, success prints "Done." and
exits 0. Result: (exit code, filesystem, stdout lines, stderr lines). -/
def doWrites (fs : FS) (out : List String) :
    List (Except String String × FsPath) → Bool → Bool → Int × FS × List String × List String
  | [], _, _ => (0, fs, out ++ ["Done."], [])
  | (.error e, _) :: _, _, _ => (1, fs, out, ["Failed: " ++ e])
  | (.ok c, p) :: rest, force, dry =>
    match write_file fs p c force dry with
    | .error (.fileExists m) => (3, fs, out, [m])
    | .error (.other m) => (1, fs, out, ["Failed: " ++ m])
    | .ok (fs1, lines) => doWrites fs1 (out ++ lines) rest force dry

/-- main from the source on the filesystem model: name normalization and
validation, parameter parsing, then the sequential render/write phase. -/
def mainModel (fs : FS) (r : Request) : Int × FS × List String × List String :=
  if valid_identifier (snake r.name) then
    match parse_params r.param with
    | .error e => (2, fs, [], [e])
    | .ok params => doWrites fs [] (mainJobs r (snake r.name) params) r.force r.dryRun
  else
    (2, fs, [], ["Invalid name after normalization: '" ++ snake r.name ++ "'"])

/-! ## Observations used by the claims -/

/-- Whether pat occurs as a contiguous sublist. -/
def listContainsSub (pat : List Char) : List Char → Bool
  | [] => pat.isPrefixOf []
  | c :: rest => pat.isPrefixOf (c :: rest) || listContainsSub pat rest

/-- Whether pat occurs as a substring of s. -/
def strContains (s pat : String) : Bool := listContainsSub pat.data s.data

/-- The value of a successful render, empty on error. -/
def exGetD (e : Except String String) : String :=
  match e with
  | .ok s => s
  | .error _ => ""

/-- The observable option tuple a surface renders for one parameter: flag
name, the type expression as it appears in the rendered text ("is_flag" for
booleans), whether the option is rendered required, and the rendered default
literal. -/
structure SurfaceOpt where
  flag : String
  typeExpr : String
  required : Bool
  defaultLit : Option String
deriving DecidableEq, Repr

/-- Tuple extracted from the CLI surface for one parameter; mirrors the
branches of cliOptionLine. -/
def cliOptTuple (p : ParamSpec) : Except String SurfaceOpt :=
  if p.type == "bool" then
    match boolDefaultExpr p with
    | .error e => .error e
    | .ok d => .ok { flag := "--" ++ p.name, typeExpr := "is_flag", required := false,
                     defaultLit := some d }
  else if p.required then
    .ok { flag := "--" ++ p.name, typeExpr := click_type p.type, required := true,
          defaultLit := none }
  else
    match optDefaultExpr p with
    | .error e => .error e
    | .ok d => .ok { flag := "--" ++ p.name, typeExpr := click_type p.type, required := false,
                     defaultLit := some d }

/-- Tuple extracted from the script surface for one parameter; mirrors the
branches of scriptOptionLine. -/
def scriptOptTuple (p : ParamSpec) : Except String SurfaceOpt :=
  if p.type == "bool" then
    match boolDefaultExpr p with
    | .error e => .error e
    | .ok d => .ok { flag := "--" ++ p.name, typeExpr := "is_flag", required := false,
                     defaultLit := some d }
  else if p.required then
    .ok { flag := "--" ++ p.name, typeExpr := scriptClickType p.type, required := true,
          defaultLit := none }
  else
    match optDefaultExpr p with
    | .error e => .error e
    | .ok d => .ok { flag := "--" ++ p.name, typeExpr := scriptClickType p.type,
                     required := false, defaultLit := some d }

/-- Per-parameter tuples of the CLI surface, in declaration order. -/
def cliSurfaceTuples (ps : List ParamSpec) : Except String (List SurfaceOpt) :=
  mapExcept cliOptTuple ps

/-- Per-parameter tuples of the script surface, in declaration order. -/
def scriptSurfaceTuples (ps : List ParamSpec) : Except String (List SurfaceOpt) :=
  mapExcept scriptOptTuple ps

/-- The script surface's spelling of a CLI type expression. -/
def scriptTypeSpelling (t : String) : String :=
  if t == "int" then "click.Int" else if t == "float" then "click.Float" else t

/-- Rename a tuple's type expression to the script surface's spelling. -/
def retypeOpt (o : SurfaceOpt) : SurfaceOpt :=
  { o with typeExpr := scriptTypeSpelling o.typeExpr }

/-- Erase a tuple's type expression (for comparing the other components). -/
def eraseTypeExpr (o : SurfaceOpt) : SurfaceOpt := { o with typeExpr := "" }


/-! ## Supporting lemmas: parser -/

/-- parse_params_go succeeds exactly by parsing each token in order. -/
theorem parse_params_go_forall2 (ts : List String) :
    ∀ (seen : List String) (specs : List ParamSpec),
      parse_params_go seen ts = .ok specs →
      List.Forall₂ (fun t s => parse_param_token t = .ok s) ts specs := by
  induction ts with
  | nil =>
    intro seen specs h
    simp only [parse_params_go] at h
    cases h
    exact List.Forall₂.nil
  | cons t ts ih =>
    intro seen specs h
    simp only [parse_params_go] at h
    cases hp : parse_param_token t with
    | error e => simp only [hp] at h; cases h
    | ok spec =>
      simp only [hp] at h
      by_cases hc : seen.contains spec.name
      · rw [if_pos hc] at h; cases h
      · rw [if_neg hc] at h
        cases hrec : parse_params_go (spec.name :: seen) ts with
        | error e => simp only [hrec] at h; cases h
        | ok rest =>
          simp only [hrec] at h
          cases h
          exact List.Forall₂.cons hp (ih _ _ hrec)

/-- parse_params_go keeps normalized names disjoint from seen and pairwise
distinct. -/
theorem parse_params_go_nodup (ts : List String) :
    ∀ (seen : List String) (specs : List ParamSpec),
      parse_params_go seen ts = .ok specs →
      (∀ s ∈ specs, ¬ (s.name ∈ seen)) ∧ (specs.map (fun s => s.name)).Nodup := by
  induction ts with
  | nil =>
    intro seen specs h
    simp only [parse_params_go] at h
    cases h
    exact ⟨(fun s hs => absurd hs (List.not_mem_nil s)), List.nodup_nil⟩
  | cons t ts ih =>
    intro seen specs h
    simp only [parse_params_go] at h
    cases hp : parse_param_token t with
    | error e => simp only [hp] at h; cases h
    | ok spec =>
      simp only [hp] at h
      by_cases hc : seen.contains spec.name
      · rw [if_pos hc] at h; cases h
      · rw [if_neg hc] at h
        cases hrec : parse_params_go (spec.name :: seen) ts with
        | error e => simp only [hrec] at h; cases h
        | ok rest =>
          simp only [hrec] at h
          cases h
          obtain ⟨hseen, hnd⟩ := ih _ _ hrec
          have hspec : ¬ (spec.name ∈ seen) := by
            intro hmem
            exact hc (List.elem_eq_true_of_mem hmem)
          refine ⟨?_, ?_⟩
          · intro s hs
            rcases List.mem_cons.mp hs with hs | hs
            · subst hs; exact hspec
            · intro hmem
              exact hseen s hs (List.mem_cons_of_mem _ hmem)
          · refine List.nodup_cons.mpr ⟨?_, hnd⟩
            intro hmem
            rcases List.mem_map.mp hmem with ⟨s, hsmem, hname⟩
            exact hseen s hsmem (by rw [hname]; exact List.mem_cons_self _ _)

/-- Splitting after appending the separator appends one empty field. -/
theorem splitOnChar_ne_nil (sep : Char) (l : List Char) : splitOnChar sep l ≠ [] := by
  cases l with
  | nil => simp [splitOnChar]
  | cons c rest =>
    by_cases h : c == sep
    · simp [splitOnChar, h]
    · simp only [splitOnChar, h]
      cases hs : splitOnChar sep rest <;> simp

/-- str.split: appending the separator at the end appends one empty field. -/
theorem splitOnChar_append_sep (sep : Char) (l : List Char) :
    splitOnChar sep (l ++ [sep]) = splitOnChar sep l ++ [[]] := by
  induction l with
  | nil => simp [splitOnChar]
  | cons c rest ih =>
    by_cases h : c == sep
    · simp [splitOnChar, h, ih]
    · simp only [List.cons_append, splitOnChar, h, ih]
      have ih2 : splitOnChar sep (rest.append [sep]) = splitOnChar sep rest ++ [[]] := ih
      cases hs : splitOnChar sep rest with
      | nil => exact absurd hs (splitOnChar_ne_nil sep rest)
      | cons g gs => rw [ih2, hs]; simp

/-- The data of a concatenation. -/
theorem strData_append (s t : String) : (s ++ t).data = s.data ++ t.data := by
  cases s; cases t; rfl

/-- token.split(":") after appending ":" ends with one more empty field. -/
theorem pySplitColon_append_colon (t : String) :
    pySplitColon (t ++ ":") = pySplitColon t ++ [""] := by
  unfold pySplitColon
  rw [show (t ++ ":").data = t.data ++ [':'] from strData_append t ":",
    splitOnChar_append_sep]
  simp

/-- Shape of a successful parse_param_fields. -/
theorem parse_param_fields_ok (token p0 p1 : String) (p2 : Option String) (s : ParamSpec)
    (h : parse_param_fields token p0 p1 p2 = .ok s) :
    s = { name := snake (pyStrip p0), type := pyStrip p1,
          required := (p2.map pyStrip).isNone, default := p2.map pyStrip } ∧
    (pyStrip p0 == "" || !(valid_identifier (snake (pyStrip p0)))) = false ∧
    (!(SUPPORTED_TYPES.contains (pyStrip p1))) = false := by
  unfold parse_param_fields at h
  by_cases h1 : (pyStrip p0 == "" || !(valid_identifier (snake (pyStrip p0)))) = true
  · rw [if_pos h1] at h; cases h
  · rw [if_neg h1] at h
    by_cases h2 : (!(SUPPORTED_TYPES.contains (pyStrip p1))) = true
    · rw [if_pos h2] at h; cases h
    · rw [if_neg h2] at h
      cases h
      exact ⟨rfl, Bool.not_eq_true _ ▸ Bool.of_not_eq_true h1, Bool.of_not_eq_true h2⟩


/-! ## Claims C5, C6, C7, C10: parameter grammar and boolean coercion -/

/-- C5: for every list of valid parameter tokens, parse_params returns one
descriptor per token in input order; "limit:int:10" yields (limit, int,
optional, default "10") and "query:str" yields (query, str, required, no
default); required holds iff no default field was supplied. -/
theorem C5_theorem :
    (∀ (tokens : List String) (specs : List ParamSpec),
        parse_params tokens = .ok specs →
        specs.length = tokens.length ∧
        List.Forall₂ (fun t s => parse_param_token t = .ok s) tokens specs) ∧
    parse_params ["limit:int:10"] =
      .ok [{ name := "limit", type := "int", required := false, default := some "10" }] ∧
    parse_params ["query:str"] =
      .ok [{ name := "query", type := "str", required := true, default := none }] ∧
    (∀ (token : String) (spec : ParamSpec), parse_param_token token = .ok spec →
        (spec.required = true ↔ spec.default = none)) := by
  refine ⟨?_, by rfl, by rfl, ?_⟩
  · intro tokens specs h
    have h2 := parse_params_go_forall2 tokens [] specs h
    exact ⟨h2.length_eq.symm, h2⟩
  · intro token spec h
    unfold parse_param_token at h
    rcases hps : pySplitColon token with _ | ⟨p0, _ | ⟨p1, _ | ⟨p2, _ | ⟨p3, rest⟩⟩⟩⟩ <;>
      simp only [hps] at h
    · cases h
    · cases h
    · obtain ⟨hspec, -, -⟩ := parse_param_fields_ok token p0 p1 none spec h
      subst hspec
      simp
    · obtain ⟨hspec, -, -⟩ := parse_param_fields_ok token p0 p1 (some p2) spec h
      subst hspec
      simp
    · cases h

/-- Witness for C5 at the tokens ["limit:int:10", "query:str"]. -/
theorem C5_witness :
    ([{ name := "limit", type := "int", required := false, default := some "10" },
      { name := "query", type := "str", required := true, default := none }] :
        List ParamSpec).length = (["limit:int:10", "query:str"] : List String).length ∧
    List.Forall₂ (fun t s => parse_param_token t = .ok s)
      ["limit:int:10", "query:str"]
      [{ name := "limit", type := "int", required := false, default := some "10" },
       { name := "query", type := "str", required := true, default := none }] :=
  C5_theorem.1 ["limit:int:10", "query:str"]
    [{ name := "limit", type := "int", required := false, default := some "10" },
     { name := "query", type := "str", required := true, default := none }] (by rfl)

/-- C6: duplicate normalized names are rejected for the whole batch at the
first duplicate, so a successful parse carries pairwise distinct names;
"Limit:int:5" next to "limit:int:10" is a duplicate. -/
theorem C6_theorem :
    (∀ (tokens : List String) (specs : List ParamSpec),
        parse_params tokens = .ok specs → (specs.map (fun s => s.name)).Nodup) ∧
    parse_params ["Limit:int:5", "limit:int:10"] =
      .error "Duplicate parameter name: 'limit'" ∧
    parse_params ["a:str", "b:int", "a:float", "b:bool"] =
      .error "Duplicate parameter name: 'a'" := by
  refine ⟨?_, by rfl, by rfl⟩
  intro tokens specs h
  exact (parse_params_go_nodup tokens [] specs h).2

/-- Witness for C6 at the tokens ["limit:int:10", "query:str"]. -/
theorem C6_witness :
    (([{ name := "limit", type := "int", required := false, default := some "10" },
       { name := "query", type := "str", required := true, default := none }] :
         List ParamSpec).map (fun s => s.name)).Nodup :=
  C6_theorem.1 ["limit:int:10", "query:str"]
    [{ name := "limit", type := "int", required := false, default := some "10" },
     { name := "query", type := "str", required := true, default := none }] (by rfl)

/-- C7 counterexample: "TRUE" lies outside both displayed vocabularies, yet
python_cast_value coerces it to True instead of failing (the source lowercases
the token first), so the claim's "every token outside this vocabulary fails"
is false as stated. -/
theorem C7_counterexample :
    truthyTokens.contains "TRUE" = false ∧ falsyTokens.contains "TRUE" = false ∧
    python_cast_value "bool" "TRUE" = .ok "True" := by
  refine ⟨by rfl, by rfl, by rfl⟩

/-- C7 amended: the vocabulary check is applied to the lowercased token: a
token whose lowercase form is truthy renders True, falsy renders False, and
any other token fails with the "Invalid boolean default" error naming it. -/
theorem C7_theorem (val : String) :
    (truthyTokens.contains (pyLower val) = true →
        python_cast_value "bool" val = .ok "True") ∧
    (falsyTokens.contains (pyLower val) = true →
        python_cast_value "bool" val = .ok "False") ∧
    (truthyTokens.contains (pyLower val) = false →
        falsyTokens.contains (pyLower val) = false →
        python_cast_value "bool" val = .error ("Invalid boolean default: " ++ val)) := by
  have hb : python_cast_value "bool" val =
      (if truthyTokens.contains (pyLower val) then Except.ok "True"
       else if falsyTokens.contains (pyLower val) then Except.ok "False"
       else Except.error ("Invalid boolean default: " ++ val)) := rfl
  have hdisj : ∀ x ∈ truthyTokens, x ∉ falsyTokens := by decide
  refine ⟨?_, ?_, ?_⟩
  · intro h
    rw [hb, if_pos h]
  · intro h
    by_cases ht : truthyTokens.contains (pyLower val) = true
    · exact absurd (List.mem_of_elem_eq_true h)
        (hdisj _ (List.mem_of_elem_eq_true ht))
    · rw [hb, if_neg ht, if_pos h]
  · intro ht hf
    rw [hb, if_neg (by rw [ht]; exact Bool.false_ne_true),
      if_neg (by rw [hf]; exact Bool.false_ne_true)]

/-- Witness for C7 at the tokens "yes", "off" and "maybe". -/
theorem C7_witness :
    python_cast_value "bool" "yes" = .ok "True" ∧
    python_cast_value "bool" "off" = .ok "False" ∧
    python_cast_value "bool" "maybe" = .error ("Invalid boolean default: " ++ "maybe") :=
  ⟨( C7_theorem "yes").1 (by rfl), ( C7_theorem "off").2.1 (by rfl),
   ( C7_theorem "maybe").2.2 (by rfl) (by rfl)⟩

/-- C10: a token with an empty third field is accepted as an optional
parameter whose default is the empty string, whatever the declared type:
concretely for all four types, and in general appending ":" to any token
that parses as required yields the same descriptor with required = false and
default = "". -/
theorem C10_theorem :
    parse_param_token "limit:int:" =
      .ok { name := "limit", type := "int", required := false, default := some "" } ∧
    (∀ (token n ty : String),
        parse_param_token token =
          .ok { name := n, type := ty, required := true, default := none } →
        parse_param_token (token ++ ":") =
          .ok { name := n, type := ty, required := false, default := some "" }) ∧
    parse_param_token "q:str:" =
      .ok { name := "q", type := "str", required := false, default := some "" } ∧
    parse_param_token "x:float:" =
      .ok { name := "x", type := "float", required := false, default := some "" } ∧
    parse_param_token "b:bool:" =
      .ok { name := "b", type := "bool", required := false, default := some "" } := by
  refine ⟨by rfl, ?_, by rfl, by rfl, by rfl⟩
  intro token n ty h
  unfold parse_param_token at h
  rcases hps : pySplitColon token with _ | ⟨p0, _ | ⟨p1, _ | ⟨p2, _ | ⟨p3, rest⟩⟩⟩⟩ <;>
    simp only [hps] at h
  · cases h
  · cases h
  · obtain ⟨hspec, h1, h2⟩ := parse_param_fields_ok token p0 p1 none _ h
    rw [ParamSpec.mk.injEq] at hspec
    obtain ⟨hn, hty, -, -⟩ := hspec
    unfold parse_param_token
    rw [pySplitColon_append_colon, hps]
    simp only [List.cons_append, List.nil_append]
    unfold parse_param_fields
    rw [if_neg (by rw [h1]; exact Bool.false_ne_true),
      if_neg (by rw [h2]; exact Bool.false_ne_true)]
    rw [hn, hty]
    rfl
  · obtain ⟨hspec, -, -⟩ := parse_param_fields_ok token p0 p1 (some p2) _ h
    rw [ParamSpec.mk.injEq] at hspec
    obtain ⟨-, -, hreq, -⟩ := hspec
    simp at hreq
  · cases h

/-- Witness for C10's general clause at the token "query:str". -/
theorem C10_witness :
    parse_param_token ("query:str" ++ ":") =
      .ok { name := "query", type := "str", required := false, default := some "" } :=
  C10_theorem.2.1 "query:str" "query" "str" (by rfl)


/-! ## Supporting lemmas: file materializer -/

/-- Writing a file makes its content visible at its path. -/
theorem lookupFile_setFile_self (files : List (FsPath × String)) (p : FsPath) (c : String) :
    lookupFile (setFile files p c) p = some c := by
  induction files with
  | nil => simp [setFile, lookupFile]
  | cons e rest ih =>
    obtain ⟨q, c0⟩ := e
    by_cases h : q = p
    · simp [setFile, lookupFile, h]
    · simp [setFile, lookupFile, h, ih]

/-- Every ancestor of a path is at most as long. -/
theorem mem_ancestors_length {q r : FsPath} (h : q ∈ ancestors r) : q.length ≤ r.length := by
  unfold ancestors at h
  rcases List.mem_map.mp h with ⟨i, hi, rfl⟩
  simp [List.length_take]

/-- A path is not an ancestor of its own parent. -/
theorem self_not_mem_ancestors_dropLast (p : FsPath) : p ∉ ancestors p.dropLast := by
  intro h
  have h1 := mem_ancestors_length h
  cases p with
  | nil => simp [ancestors] at h
  | cons a rest =>
    rw [List.length_dropLast] at h1
    simp only [List.length_cons] at h1
    omega

/-- Shape of a successful ensure_parent: files untouched, directories only
extended by ancestors of the parent, and the conflict conditions false. -/
theorem ensure_parent_ok (fs fsa : FS) (p : FsPath) (h : ensure_parent fs p = .ok fsa) :
    fsa.files = fs.files ∧
    fsa.dirs = fs.dirs ++ (ancestors p.dropLast).filter (fun q => decide (q ∉ fs.dirs)) ∧
    ((ancestors p.dropLast).dropLast.any fun q => (lookupFile fs.files q).isSome) = false ∧
    (lookupFile fs.files p.dropLast).isSome = false := by
  unfold ensure_parent mkdirParents at h
  by_cases h1 : ((ancestors p.dropLast).dropLast.any fun q => (lookupFile fs.files q).isSome) = true
  · rw [if_pos h1] at h; cases h
  · rw [if_neg h1] at h
    by_cases h2 : (lookupFile fs.files p.dropLast).isSome = true
    · rw [if_pos h2] at h; cases h
    · rw [if_neg h2] at h
      cases h
      exact ⟨rfl, rfl, Bool.of_not_eq_true h1, Bool.of_not_eq_true h2⟩

/-- After a successful ensure_parent the target path itself is still not a
directory, provided it was none before. -/
theorem ensure_parent_not_dir (fs fsa : FS) (p : FsPath) (hdir : p ∉ fs.dirs)
    (h : ensure_parent fs p = .ok fsa) : p ∉ fsa.dirs := by
  obtain ⟨-, hdirs, -, -⟩ := ensure_parent_ok fs fsa p h
  rw [hdirs]
  intro hmem
  rcases List.mem_append.mp hmem with hmem | hmem
  · exact hdir hmem
  · exact self_not_mem_ancestors_dropLast p (List.mem_of_mem_filter hmem)

/-- The existence/force conflict in write_file, for any dry-run flag: the
distinct FileExistsError naming the path, raised before anything else. -/
theorem write_file_conflict (fs : FS) (p : FsPath) (c : String) (dry : Bool)
    (hex : pathExists fs p = true) :
    write_file fs p c false dry =
      .error (.fileExists ("File exists: " ++ pathStr p ++ " (use --force to overwrite)")) := by
  unfold write_file
  rw [if_pos (by rw [hex]; rfl)]

/-! ## Claim C1: dry-run and filesystem mutation -/

/-- C1 counterexample: on an empty filesystem, a dry-run write_file to
apps/x.py creates the directory "apps" (ensure_parent runs before the
dry-run branch), so dry-run does mutate the filesystem. -/
theorem C1_counterexample :
    write_file { files := [], dirs := [] } ["apps", "x.py"] "content" false true =
      .ok ({ files := [], dirs := [["apps"]] }, ["[DRY RUN] Would write: apps/x.py"]) ∧
    ({ files := [], dirs := [["apps"]] } : FS).dirs ≠ ({ files := [], dirs := [] } : FS).dirs := by
  exact ⟨by rfl, by simp⟩

/-- C1 amended: a dry-run write_file writes no file (the files map is
unchanged and only the dry-run report is printed), but it does create parent
directories; a subsequent non-dry-run invocation with the same request still
succeeds and writes the content (for a target that is not an existing
directory). -/
theorem C1_theorem (fs : FS) (p : FsPath) (c : String) (force : Bool) (fsa : FS)
    (out : List String)
    (hdir : p ∉ fs.dirs)
    (h : write_file fs p c force true = .ok (fsa, out)) :
    fsa.files = fs.files ∧
    out = ["[DRY RUN] Would write: " ++ pathStr p] ∧
    ∃ fsb, write_file fsa p c force false = .ok (fsb, ["Wrote " ++ pathStr p]) ∧
      lookupFile fsb.files p = some c := by
  unfold write_file at h
  by_cases hex : (pathExists fs p && !force) = true
  · rw [if_pos hex] at h; cases h
  · rw [if_neg hex] at h
    cases hep : ensure_parent fs p with
    | error e => rw [hep] at h; cases h
    | ok fs1 =>
      rw [hep] at h
      simp only [if_true] at h
      injection h with hpair
      injection hpair with hfsa hout
      subst hfsa
      subst hout
      obtain ⟨hfiles, hdirs, hanc, hpar⟩ := ensure_parent_ok fs fs1 p hep
      have hnd1 : p ∉ fs1.dirs := ensure_parent_not_dir fs fs1 p hdir hep
      refine ⟨hfiles, rfl, ?_⟩
      have hex1 : (pathExists fs1 p && !force) = false := by
        cases hforce : force with
        | true => simp
        | false =>
          rw [hforce] at hex
          simp only [Bool.not_false, Bool.and_true] at hex ⊢
          have hex0 : pathExists fs p = false := Bool.of_not_eq_true hex
          unfold pathExists at hex0 ⊢
          rw [hfiles]
          simp only [Bool.or_eq_false_iff] at hex0 ⊢
          exact ⟨hex0.1, by simp [hnd1]⟩
      unfold write_file
      rw [if_neg (by rw [hex1]; exact Bool.false_ne_true)]
      have hep1 : ensure_parent fs1 p =
          .ok { fs1 with
            dirs := fs1.dirs ++ (ancestors p.dropLast).filter (fun q => decide (q ∉ fs1.dirs)) } := by
        unfold ensure_parent mkdirParents
        rw [if_neg (by rw [hfiles, hanc]; exact Bool.false_ne_true),
          if_neg (by rw [hfiles, hpar]; exact Bool.false_ne_true)]
      rw [hep1]
      have hnd2 : p ∉ fs1.dirs ++ (ancestors p.dropLast).filter (fun q => decide (q ∉ fs1.dirs)) := by
        intro hmem
        rcases List.mem_append.mp hmem with hmem | hmem
        · exact hnd1 hmem
        · exact self_not_mem_ancestors_dropLast p (List.mem_of_mem_filter hmem)
      simp only [writeText, hnd2, if_neg, Bool.false_eq_true, if_false, ite_false]
      exact ⟨_, rfl, lookupFile_setFile_self _ p c⟩

/-- Witness for C1 at an empty filesystem and the path apps/x.py. -/
theorem C1_witness :
    ({ files := [], dirs := [["apps"]] } : FS).files = ({ files := [], dirs := [] } : FS).files ∧
    ["[DRY RUN] Would write: apps/x.py"] =
      ["[DRY RUN] Would write: " ++ pathStr ["apps", "x.py"]] ∧
    ∃ fsb, write_file { files := [], dirs := [["apps"]] } ["apps", "x.py"] "content" false false =
        .ok (fsb, ["Wrote " ++ pathStr ["apps", "x.py"]]) ∧
      lookupFile fsb.files ["apps", "x.py"] = some "content" :=
  C1_theorem { files := [], dirs := [] } ["apps", "x.py"] "content" false
    { files := [], dirs := [["apps"]] } ["[DRY RUN] Would write: apps/x.py"]
    (by simp) (by rfl)


/-! ## Supporting lemmas: main and the conflict exit code -/

/-- A successful generate_cli_content, as an existential. -/
theorem exOk_ok {α : Type} (e : Except String α) (h : exOk e = true) : ∃ v, e = .ok v := by
  cases e with
  | ok v => exact ⟨v, rfl⟩
  | error m => simp [exOk] at h

/-- main exits with the conflict code 3 and an untouched filesystem when the
CLI target path already exists without force (whatever the dry-run flag):
name and parameters valid, rendering fine, conflict detected at write_file. -/
theorem mainModel_cli_conflict (fs : FS) (r : Request) (ps : List ParamSpec) (p : FsPath)
    (hname : valid_identifier (snake r.name) = true)
    (hpar : parse_params r.param = .ok ps)
    (htg : r.target = Target.cli)
    (hout : r.outCli = some p)
    (hok : exOk (generate_cli_content (snake r.name) r.binary r.apiBaseUrl r.endpoint ps
        r.description) = true)
    (hex : pathExists fs p = true)
    (hforce : r.force = false) :
    mainModel fs r =
      (3, fs, [], ["File exists: " ++ pathStr p ++ " (use --force to overwrite)"]) := by
  obtain ⟨s, hs⟩ := exOk_ok _ hok
  unfold mainModel
  rw [if_pos hname]
  simp only [hpar]
  unfold mainJobs
  rw [htg, hout]
  rw [if_pos (Or.inl rfl), if_neg (by simp)]
  simp only [Option.getD_some, List.nil_append, List.cons_append]
  rw [hs]
  simp only [doWrites]
  rw [hforce, write_file_conflict fs p s r.dryRun hex]

/-! ## Claim C8: existing target without force, and force overwrite -/

/-- C8: writing to an existing path without force raises the distinct
FileExistsError naming the path before any mutation, and main then exits
with the conflict code 3 leaving the filesystem unchanged; with force, a
successful write_file replaces the file's content with the rendered text. -/
theorem C8_theorem :
    (∀ (fs : FS) (p : FsPath) (c : String) (dry : Bool), pathExists fs p = true →
        write_file fs p c false dry =
          .error (.fileExists ("File exists: " ++ pathStr p ++ " (use --force to overwrite)"))) ∧
    (∀ (fs : FS) (r : Request) (ps : List ParamSpec) (p : FsPath),
        valid_identifier (snake r.name) = true →
        parse_params r.param = .ok ps →
        r.target = Target.cli →
        r.outCli = some p →
        exOk (generate_cli_content (snake r.name) r.binary r.apiBaseUrl r.endpoint ps
          r.description) = true →
        pathExists fs p = true →
        r.force = false →
        mainModel fs r =
          (3, fs, [], ["File exists: " ++ pathStr p ++ " (use --force to overwrite)"])) ∧
    (∀ (fs : FS) (p : FsPath) (c : String) (fsb : FS) (out : List String),
        write_file fs p c true false = .ok (fsb, out) →
        lookupFile fsb.files p = some c ∧ out = ["Wrote " ++ pathStr p]) := by
  refine ⟨write_file_conflict, mainModel_cli_conflict, ?_⟩
  intro fs p c fsb out h
  unfold write_file at h
  rw [if_neg (by simp)] at h
  cases hep : ensure_parent fs p with
  | error e => rw [hep] at h; cases h
  | ok fs1 =>
    rw [hep] at h
    simp only [Bool.false_eq_true, if_false, ite_false] at h
    unfold writeText at h
    by_cases hd : p ∈ fs1.dirs
    · rw [if_pos hd] at h; cases h
    · rw [if_neg hd] at h
      injection h with hpair
      injection hpair with h1 h2
      rw [← h1, ← h2]
      exact ⟨lookupFile_setFile_self _ p c, rfl⟩

/-- Witness for C8: the conflict on out.py both at write_file and through
main, and a force overwrite replacing old content. -/
theorem C8_witness :
    write_file { files := [(["out.py"], "old")], dirs := [] } ["out.py"] "new" false false =
      .error (.fileExists ("File exists: " ++ pathStr ["out.py"] ++ " (use --force to overwrite)")) ∧
    mainModel { files := [(["out.py"], "old")], dirs := [] }
      { name := "markets", target := Target.cli, binary := "yourcmd", endpoint := "/example",
        apiBaseUrl := "https://example.com/api", param := [], description := none,
        outCli := some ["out.py"], outScript := none, noSimulate := false,
        emitTestPlan := none, emitDocSnippets := none, force := false, dryRun := false } =
      (3, { files := [(["out.py"], "old")], dirs := [] }, [],
        ["File exists: " ++ pathStr ["out.py"] ++ " (use --force to overwrite)"]) ∧
    (lookupFile ({ files := [(["out.py"], "new")], dirs := [] } : FS).files ["out.py"] =
        some "new" ∧
      ["Wrote out.py"] = ["Wrote " ++ pathStr ["out.py"]]) :=
  ⟨C8_theorem.1 { files := [(["out.py"], "old")], dirs := [] } ["out.py"] "new" false (by rfl),
   C8_theorem.2.1 { files := [(["out.py"], "old")], dirs := [] }
     { name := "markets", target := Target.cli, binary := "yourcmd", endpoint := "/example",
       apiBaseUrl := "https://example.com/api", param := [], description := none,
       outCli := some ["out.py"], outScript := none, noSimulate := false,
       emitTestPlan := none, emitDocSnippets := none, force := false, dryRun := false }
     [] ["out.py"] (by rfl) (by rfl) (by rfl) (by rfl) (by rfl) (by rfl) (by rfl),
   C8_theorem.2.2 { files := [(["out.py"], "old")], dirs := [] } ["out.py"] "new"
     { files := [(["out.py"], "new")], dirs := [] } ["Wrote out.py"] (by rfl)⟩

/-! ## Claim C9: the conflict check precedes the dry-run branch -/

/-- C9: in write_file the existence/force check comes before the dry-run
branch, so a dry-run write to an existing path without force raises the
FileExistsError (and main exits 3 with empty stdout — no would-be-write
report) instead of reporting the path. -/
theorem C9_theorem :
    (∀ (fs : FS) (p : FsPath) (c : String), pathExists fs p = true →
        write_file fs p c false true =
          .error (.fileExists ("File exists: " ++ pathStr p ++ " (use --force to overwrite)"))) ∧
    (∀ (fs : FS) (r : Request) (ps : List ParamSpec) (p : FsPath),
        valid_identifier (snake r.name) = true →
        parse_params r.param = .ok ps →
        r.target = Target.cli →
        r.outCli = some p →
        exOk (generate_cli_content (snake r.name) r.binary r.apiBaseUrl r.endpoint ps
          r.description) = true →
        pathExists fs p = true →
        r.force = false →
        r.dryRun = true →
        mainModel fs r =
          (3, fs, [], ["File exists: " ++ pathStr p ++ " (use --force to overwrite)"])) := by
  refine ⟨fun fs p c h => write_file_conflict fs p c true h, ?_⟩
  intro fs r ps p h1 h2 h3 h4 h5 h6 h7 _
  exact mainModel_cli_conflict fs r ps p h1 h2 h3 h4 h5 h6 h7

/-- Witness for C9: dry-run on the existing out.py still raises the error. -/
theorem C9_witness :
    write_file { files := [(["out.py"], "old")], dirs := [] } ["out.py"] "new" false true =
      .error (.fileExists ("File exists: " ++ pathStr ["out.py"] ++ " (use --force to overwrite)")) ∧
    mainModel { files := [(["out.py"], "old")], dirs := [] }
      { name := "markets", target := Target.cli, binary := "yourcmd", endpoint := "/example",
        apiBaseUrl := "https://example.com/api", param := [], description := none,
        outCli := some ["out.py"], outScript := none, noSimulate := false,
        emitTestPlan := none, emitDocSnippets := none, force := false, dryRun := true } =
      (3, { files := [(["out.py"], "old")], dirs := [] }, [],
        ["File exists: " ++ pathStr ["out.py"] ++ " (use --force to overwrite)"]) :=
  ⟨C9_theorem.1 { files := [(["out.py"], "old")], dirs := [] } ["out.py"] "new" (by rfl),
   C9_theorem.2 { files := [(["out.py"], "old")], dirs := [] }
     { name := "markets", target := Target.cli, binary := "yourcmd", endpoint := "/example",
       apiBaseUrl := "https://example.com/api", param := [], description := none,
       outCli := some ["out.py"], outScript := none, noSimulate := false,
       emitTestPlan := none, emitDocSnippets := none, force := false, dryRun := true }
     [] ["out.py"] (by rfl) (by rfl) (by rfl) (by rfl) (by rfl) (by rfl) (by rfl) (by rfl)⟩


/-! ## Supporting lemmas: rendering failures on invalid defaults -/

/-- A failing element makes the whole render loop fail. -/
theorem mapExcept_not_ok {α β : Type} (f : α → Except String β) (l : List α) (a : α)
    (ha : a ∈ l) (hf : exOk (f a) = false) : exOk (mapExcept f l) = false := by
  induction l with
  | nil => cases ha
  | cons b t ih =>
    rcases List.mem_cons.mp ha with rfl | ha2
    · cases hb : f a with
      | error e => simp [mapExcept, hb, exOk]
      | ok v => rw [hb] at hf; simp [exOk] at hf
    · cases hb : f b with
      | error e => simp [mapExcept, hb, exOk]
      | ok v =>
        have h2 := ih ha2
        cases hm : mapExcept f t with
        | error e => simp [mapExcept, hb, hm, exOk]
        | ok bs => rw [hm] at h2; simp [exOk] at h2

set_option maxHeartbeats 1600000 in
/-- cliOptionLine fails exactly when the parameter's default coercion fails. -/
theorem cliOptionLine_exOk (p : ParamSpec) :
    exOk (cliOptionLine p) = exOk (paramRenderCast p) := by
  unfold cliOptionLine paramRenderCast
  by_cases hb : (p.type == "bool") = true
  · rw [if_pos hb, if_pos hb]
    cases hd : boolDefaultExpr p <;> simp [exOk]
  · rw [if_neg hb, if_neg hb]
    by_cases hr : p.required = true
    · rw [if_pos hr, if_pos hr]; rfl
    · rw [if_neg hr, if_neg hr]
      cases hd : optDefaultExpr p <;> simp [exOk]

set_option maxHeartbeats 1600000 in
/-- scriptOptionLine fails exactly when the parameter's default coercion
fails (the same coercions as the CLI surface). -/
theorem scriptOptionLine_exOk (p : ParamSpec) :
    exOk (scriptOptionLine p) = exOk (paramRenderCast p) := by
  unfold scriptOptionLine paramRenderCast
  by_cases hb : (p.type == "bool") = true
  · rw [if_pos hb, if_pos hb]
    cases hd : boolDefaultExpr p <;> simp [exOk]
  · rw [if_neg hb, if_neg hb]
    by_cases hr : p.required = true
    · rw [if_pos hr, if_pos hr]; rfl
    · rw [if_neg hr, if_neg hr]
      cases hd : optDefaultExpr p <;> simp [exOk]

/-- generate_cli_content fails when some parameter's default coercion fails. -/
theorem generate_cli_content_not_ok (name binary url ep : String) (ps : List ParamSpec)
    (d : Option String) (a : ParamSpec) (ha : a ∈ ps)
    (hf : exOk (paramRenderCast a) = false) :
    exOk (generate_cli_content name binary url ep ps d) = false := by
  have h := mapExcept_not_ok cliOptionLine ps a ha (by rw [cliOptionLine_exOk]; exact hf)
  unfold generate_cli_content
  cases hm : mapExcept cliOptionLine ps with
  | error e => simp [exOk]
  | ok v => rw [hm] at h; simp [exOk] at h

/-- generate_script_content fails when some parameter's default coercion
fails. -/
theorem generate_script_content_not_ok (name binary url ep : String) (ps : List ParamSpec)
    (d : Option String) (sim : Bool) (a : ParamSpec) (ha : a ∈ ps)
    (hf : exOk (paramRenderCast a) = false) :
    exOk (generate_script_content name binary url ep ps d sim) = false := by
  have h := mapExcept_not_ok scriptOptionLine ps a ha (by rw [scriptOptionLine_exOk]; exact hf)
  unfold generate_script_content
  cases hm : mapExcept scriptOptionLine ps with
  | error e => simp [exOk]
  | ok v => rw [hm] at h; simp [exOk] at h

/-- A failing render at the head of the job list exits 1 with nothing
written. -/
theorem doWrites_head_error (fs : FS) (out : List String) (e : String) (p : FsPath)
    (rest : List (Except String String × FsPath)) (force dry : Bool) :
    doWrites fs out ((Except.error e, p) :: rest) force dry = (1, fs, out, ["Failed: " ++ e]) :=
  rfl

/-! ## Claim C2: where validation errors are detected and with which code -/

/-- C2 counterexample: the boolean default "maybe" is a grammar-level
validation error by the claim, yet main exits with code 1 — the coercion
error surfaces while rendering (caught as a generic failure), not before
rendering with the validation exit code 2. -/
theorem C2_counterexample :
    mainModel { files := [], dirs := [] }
      { name := "markets", target := Target.cli, binary := "yourcmd", endpoint := "/example",
        apiBaseUrl := "https://example.com/api", param := ["flag:bool:maybe"],
        description := none, outCli := some ["out.py"], outScript := none, noSimulate := false,
        emitTestPlan := none, emitDocSnippets := none, force := false, dryRun := false } =
      (1, { files := [], dirs := [] }, [], ["Failed: Invalid boolean default: maybe"]) := by
  rfl

/-- C2 amended: the errors the tokenizer itself detects — malformed token,
duplicate name, invalid identifier, unsupported type — are raised before any
rendering or writing and main exits with the validation code 2 and an
untouched filesystem; an invalid boolean or numeric default value is only
detected during rendering (still before any file is written: the filesystem
is unchanged) and main exits with the generic failure code 1. -/
theorem C2_theorem (fs : FS) (r : Request) :
    (∀ e, valid_identifier (snake r.name) = true →
        parse_params r.param = .error e →
        mainModel fs r = (2, fs, [], [e])) ∧
    (∀ (ps : List ParamSpec) (a : ParamSpec),
        valid_identifier (snake r.name) = true →
        parse_params r.param = .ok ps →
        a ∈ ps →
        exOk (paramRenderCast a) = false →
        (mainModel fs r).1 = 1 ∧ (mainModel fs r).2.1 = fs) := by
  constructor
  · intro e hname hpar
    unfold mainModel
    rw [if_pos hname]
    simp only [hpar]
  · intro ps a hname hpar ha hf
    unfold mainModel
    rw [if_pos hname]
    simp only [hpar]
    unfold mainJobs
    cases htg : r.target with
    | cli =>
      rw [if_pos (Or.inl rfl), if_neg (by simp)]
      obtain ⟨e, he⟩ : ∃ e, generate_cli_content (snake r.name) r.binary r.apiBaseUrl
          r.endpoint ps r.description = .error e := by
        have h := generate_cli_content_not_ok (snake r.name) r.binary r.apiBaseUrl
          r.endpoint ps r.description a ha hf
        cases hg : generate_cli_content (snake r.name) r.binary r.apiBaseUrl
            r.endpoint ps r.description with
        | error e => exact ⟨e, rfl⟩
        | ok v => rw [hg] at h; simp [exOk] at h
      rw [he]
      simp only [List.nil_append, List.cons_append, doWrites_head_error]
      exact ⟨by trivial, by trivial⟩
    | both =>
      rw [if_pos (Or.inr rfl), if_pos (Or.inr rfl)]
      obtain ⟨e, he⟩ : ∃ e, generate_cli_content (snake r.name) r.binary r.apiBaseUrl
          r.endpoint ps r.description = .error e := by
        have h := generate_cli_content_not_ok (snake r.name) r.binary r.apiBaseUrl
          r.endpoint ps r.description a ha hf
        cases hg : generate_cli_content (snake r.name) r.binary r.apiBaseUrl
            r.endpoint ps r.description with
        | error e => exact ⟨e, rfl⟩
        | ok v => rw [hg] at h; simp [exOk] at h
      rw [he]
      simp only [List.nil_append, List.cons_append, doWrites_head_error]
      exact ⟨by trivial, by trivial⟩
    | script =>
      rw [if_neg (by simp), if_pos (Or.inl rfl)]
      obtain ⟨e, he⟩ : ∃ e, generate_script_content (snake r.name) r.binary r.apiBaseUrl
          r.endpoint ps r.description (!r.noSimulate) = .error e := by
        have h := generate_script_content_not_ok (snake r.name) r.binary r.apiBaseUrl
          r.endpoint ps r.description (!r.noSimulate) a ha hf
        cases hg : generate_script_content (snake r.name) r.binary r.apiBaseUrl
            r.endpoint ps r.description (!r.noSimulate) with
        | error e => exact ⟨e, rfl⟩
        | ok v => rw [hg] at h; simp [exOk] at h
      rw [he]
      simp only [List.nil_append, List.cons_append, doWrites_head_error]
      exact ⟨by trivial, by trivial⟩

/-- Witness for C2: a malformed token exits 2, and the invalid boolean
default "maybe" exits 1, both leaving the filesystem unchanged. -/
theorem C2_witness :
    mainModel { files := [], dirs := [] }
      { name := "markets", target := Target.cli, binary := "yourcmd", endpoint := "/example",
        apiBaseUrl := "https://example.com/api", param := ["oops"], description := none,
        outCli := some ["out.py"], outScript := none, noSimulate := false,
        emitTestPlan := none, emitDocSnippets := none, force := false, dryRun := false } =
      (2, { files := [], dirs := [] }, [],
        ["Invalid --param format: 'oops'. Expected 'name:type[:default]'"]) ∧
    ((mainModel { files := [], dirs := [] }
      { name := "markets", target := Target.script, binary := "yourcmd", endpoint := "/example",
        apiBaseUrl := "https://example.com/api", param := ["flag:bool:maybe"],
        description := none, outCli := none, outScript := some ["s.py"], noSimulate := false,
        emitTestPlan := none, emitDocSnippets := none, force := false, dryRun := false }).1 = 1 ∧
     (mainModel { files := [], dirs := [] }
      { name := "markets", target := Target.script, binary := "yourcmd", endpoint := "/example",
        apiBaseUrl := "https://example.com/api", param := ["flag:bool:maybe"],
        description := none, outCli := none, outScript := some ["s.py"], noSimulate := false,
        emitTestPlan := none, emitDocSnippets := none, force := false, dryRun := false }).2.1 =
       { files := [], dirs := [] }) :=
  ⟨(C2_theorem { files := [], dirs := [] }
      { name := "markets", target := Target.cli, binary := "yourcmd", endpoint := "/example",
        apiBaseUrl := "https://example.com/api", param := ["oops"], description := none,
        outCli := some ["out.py"], outScript := none, noSimulate := false,
        emitTestPlan := none, emitDocSnippets := none, force := false, dryRun := false }).1
      "Invalid --param format: 'oops'. Expected 'name:type[:default]'" (by rfl) (by rfl),
   (C2_theorem { files := [], dirs := [] }
      { name := "markets", target := Target.script, binary := "yourcmd", endpoint := "/example",
        apiBaseUrl := "https://example.com/api", param := ["flag:bool:maybe"],
        description := none, outCli := none, outScript := some ["s.py"], noSimulate := false,
        emitTestPlan := none, emitDocSnippets := none, force := false, dryRun := false }).2
      [{ name := "flag", type := "bool", required := false, default := some "maybe" }]
      { name := "flag", type := "bool", required := false, default := some "maybe" }
      (by rfl) (by rfl) (by simp) (by rfl)⟩


/-! ## Claim C3: surface parity of the extracted option tuples -/

/-- The script surface's type spelling is the renaming of the CLI's. -/
theorem scriptClickType_eq (t : String) :
    scriptClickType t = scriptTypeSpelling (click_type t) := by
  by_cases h1 : t = "str"
  · subst h1; rfl
  by_cases h2 : t = "int"
  · subst h2; rfl
  by_cases h3 : t = "float"
  · subst h3; rfl
  by_cases h4 : t = "bool"
  · subst h4; rfl
  have b1 : (t == "str") = false := beq_eq_false_iff_ne.mpr h1
  have b2 : (t == "int") = false := beq_eq_false_iff_ne.mpr h2
  have b3 : (t == "float") = false := beq_eq_false_iff_ne.mpr h3
  have b4 : (t == "bool") = false := beq_eq_false_iff_ne.mpr h4
  unfold scriptClickType click_type scriptTypeSpelling
  simp [b1, b2, b3, b4]

/-- Per parameter, the script surface's tuple is the CLI surface's with the
type expression respelled; everything else (flag, required, default) is
identical, and so are coercion errors. -/
theorem scriptOptTuple_eq (p : ParamSpec) :
    scriptOptTuple p = (cliOptTuple p).map retypeOpt := by
  unfold scriptOptTuple cliOptTuple
  by_cases hb : (p.type == "bool") = true
  · rw [if_pos hb, if_pos hb]
    cases hd : boolDefaultExpr p with
    | error e => rfl
    | ok d => rfl
  · rw [if_neg hb, if_neg hb]
    by_cases hr : p.required = true
    · rw [if_pos hr, if_pos hr]
      simp [Except.map, retypeOpt, scriptClickType_eq]
    · rw [if_neg hr, if_neg hr]
      cases hd : optDefaultExpr p with
      | error e => rfl
      | ok d => simp [Except.map, retypeOpt, scriptClickType_eq]

/-- mapExcept commutes with mapping a pure function over each result. -/
theorem mapExcept_map {α β γ : Type} (f : α → Except String β) (g : β → γ) (l : List α) :
    mapExcept (fun a => (f a).map g) l = (mapExcept f l).map (List.map g) := by
  induction l with
  | nil => rfl
  | cons a t ih =>
    have hstep : mapExcept (fun x => (f x).map g) (a :: t) =
        (match (f a).map g with
         | .error e => .error e
         | .ok b =>
           match mapExcept (fun x => (f x).map g) t with
           | .error e => .error e
           | .ok bs => .ok (b :: bs)) := rfl
    rw [hstep, ih]
    cases hf : f a with
    | error e => simp [mapExcept, hf, Except.map]
    | ok b =>
      cases hm : mapExcept f t with
      | error e => simp [mapExcept, hf, hm, Except.map]
      | ok bs => simp [mapExcept, hf, hm, Except.map]

/-- C3 counterexample: for the single parameter limit:int:10 the two
surfaces' extracted tuples differ in the rendered type expression — the CLI
surface renders type=int where the script surface renders type=click.Int —
so the tuples are not identical as the claim states. -/
theorem C3_counterexample :
    cliSurfaceTuples [{ name := "limit", type := "int", required := false, default := some "10" }] =
      .ok [{ flag := "--limit", typeExpr := "int", required := false,
             defaultLit := some "10" }] ∧
    scriptSurfaceTuples [{ name := "limit", type := "int", required := false, default := some "10" }] =
      .ok [{ flag := "--limit", typeExpr := "click.Int", required := false,
             defaultLit := some "10" }] ∧
    ([{ flag := "--limit", typeExpr := "int", required := false,
        defaultLit := some "10" }] : List SurfaceOpt) ≠
      [{ flag := "--limit", typeExpr := "click.Int", required := false,
         defaultLit := some "10" }] ∧
    strContains (exGetD (cliOptionLine
      { name := "limit", type := "int", required := false, default := some "10" }))
      "type=int," = true ∧
    strContains (exGetD (scriptOptionLine
      { name := "limit", type := "int", required := false, default := some "10" }))
      "type=click.Int," = true := by
  refine ⟨by rfl, by rfl, by decide, by decide, by decide⟩

/-- C3 amended: for every parameter descriptor list the two surfaces render,
per parameter and in declaration order, identical {flag, required, default
literal} tuples (with identical coercion failures), and type expressions
equal up to the script surface's int/float respelling (click.Int and
click.Float denote the same declared types as int and float); erasing the
type expression makes the extracted tuple lists of the two surfaces equal. -/
theorem C3_theorem (ps : List ParamSpec) :
    scriptSurfaceTuples ps = (cliSurfaceTuples ps).map (List.map retypeOpt) ∧
    (scriptSurfaceTuples ps).map (List.map eraseTypeExpr) =
      (cliSurfaceTuples ps).map (List.map eraseTypeExpr) := by
  have h1 : scriptSurfaceTuples ps = (cliSurfaceTuples ps).map (List.map retypeOpt) := by
    unfold scriptSurfaceTuples cliSurfaceTuples
    rw [show scriptOptTuple = (fun p => (cliOptTuple p).map retypeOpt) from
      funext scriptOptTuple_eq]
    exact mapExcept_map cliOptTuple retypeOpt ps
  refine ⟨h1, ?_⟩
  rw [h1]
  have hcomp : eraseTypeExpr ∘ retypeOpt = eraseTypeExpr := funext (fun o => rfl)
  cases cliSurfaceTuples ps with
  | error e => rfl
  | ok v => simp [Except.map, List.map_map, hcomp]

/-! ## Claim C4: description header and Usage lines of the artifacts -/

/-- Appending preserves a prefix of the left part. -/
theorem prefix_of_append (pre lit rest : String) (h : pre.data <+: lit.data) :
    pre.data <+: (lit ++ rest).data := by
  rw [strData_append]
  exact h.trans (List.prefix_append _ _)

set_option maxHeartbeats 4000000 in
set_option maxRecDepth 8192 in
/-- C4 counterexample: for the request (example, yourcmd, /example, no
parameters) both surface renders succeed and neither rendered artifact
contains any "Usage:" line, contradicting the claim that every artifact
carries at least one. -/
theorem C4_counterexample :
    generate_cli_content "example" "yourcmd" "https://example.com/api" "/example" [] none =
      .ok (exGetD (generate_cli_content "example" "yourcmd" "https://example.com/api"
        "/example" [] none)) ∧
    strContains (exGetD (generate_cli_content "example" "yourcmd" "https://example.com/api"
      "/example" [] none)) "Usage:" = false ∧
    generate_script_content "example" "yourcmd" "https://example.com/api" "/example" [] none
        true =
      .ok (exGetD (generate_script_content "example" "yourcmd" "https://example.com/api"
        "/example" [] none true)) ∧
    strContains (exGetD (generate_script_content "example" "yourcmd" "https://example.com/api"
      "/example" [] none true)) "Usage:" = false := by
  refine ⟨by rfl, by decide, by rfl, by decide⟩

set_option maxHeartbeats 4000000 in
set_option maxRecDepth 8192 in
/-- C4 amended: the standalone script artifact always begins with the
dependency comment followed by a top-of-file description docstring, while
the subcommand artifact begins with shebang and imports and has no
top-of-file docstring at all; and the fixed templates emit no "Usage:" line
(witnessed at a concrete request for both artifacts), so the external
indexer finds no Usage examples in either artifact. -/
theorem C4_theorem :
    (∀ (name binary api_base_url endpoint : String) (params : List ParamSpec)
        (description : Option String) (s : String),
        generate_cli_content name binary api_base_url endpoint params description = .ok s →
        ("#!/usr/bin/env python3\nimport json\nimport sys\nimport typing as t\n\nimport click\nimport httpx\n\n").data <+: s.data) ∧
    (∀ (name binary api_base_url endpoint : String) (params : List ParamSpec)
        (description : Option String) (include_simulate : Bool) (s : String),
        generate_script_content name binary api_base_url endpoint params description
          include_simulate = .ok s →
        ("#!/usr/bin/env python3\n# /// script\n# dependencies = [\n#     \"httpx\",\n#     \"click\",\n# ]\n# ///\n\n\"\"\"").data <+: s.data) ∧
    strContains (exGetD (generate_cli_content "example" "yourcmd" "https://example.com/api"
      "/example" [] none)) "Usage:" = false ∧
    strContains (exGetD (generate_script_content "example" "yourcmd" "https://example.com/api"
      "/example" [] none true)) "Usage:" = false := by
  refine ⟨?_, ?_, by decide, by decide⟩
  · intro name binary api_base_url endpoint params description s h
    unfold generate_cli_content at h
    cases hm : mapExcept cliOptionLine params with
    | error e => rw [hm] at h; cases h
    | ok opts =>
      rw [hm] at h
      simp only [Except.ok.injEq] at h
      rw [← h]
      repeat refine prefix_of_append _ _ _ ?_
      decide
  · intro name binary api_base_url endpoint params description include_simulate s h
    unfold generate_script_content at h
    cases hm : mapExcept scriptOptionLine params with
    | error e => rw [hm] at h; cases h
    | ok opts =>
      rw [hm] at h
      simp only [Except.ok.injEq] at h
      rw [← h]
      repeat refine prefix_of_append _ _ _ ?_
      decide

/-- Witness for C4 at the request (demo, yourcmd, /v1/demo, no parameters). -/
theorem C4_witness :
    ("#!/usr/bin/env python3\nimport json\nimport sys\nimport typing as t\n\nimport click\nimport httpx\n\n").data <+:
      (exGetD (generate_cli_content "demo" "yourcmd" "https://example.com/api" "/v1/demo"
        [] none)).data ∧
    ("#!/usr/bin/env python3\n# /// script\n# dependencies = [\n#     \"httpx\",\n#     \"click\",\n# ]\n# ///\n\n\"\"\"").data <+:
      (exGetD (generate_script_content "demo" "yourcmd" "https://example.com/api" "/v1/demo"
        [] none true)).data :=
  ⟨C4_theorem.1 "demo" "yourcmd" "https://example.com/api" "/v1/demo" [] none _ (by rfl),
   C4_theorem.2.1 "demo" "yourcmd" "https://example.com/api" "/v1/demo" [] none true _ (by rfl)⟩

end Gen
